import Mathlib

/-!
Shallow embedding of `src/scripts/synth_data_gen.py` and
`src/scripts/data_enrichment.py`: a synthetic marketing star-schema
generator (dimension tables, a campaign-source-date fact skeleton,
randomized per-row metrics) and a KPI enrichment pass.

Random draws (`np.random.randint` / `np.random.uniform`) are modelled by
quantifying over a per-row `Draw` record constrained to the exact
distribution bounds used in the source; floats are modelled as `ℚ`;
`astype(int)` is truncation toward zero and `.round(2)` is
round-half-to-even at two decimals, as in numpy.
-/

namespace SynthData

/-- A calendar date, standing for the `datetime` values built from
`datetime(2023, 1, 1) + timedelta(days=x)`. -/
structure Date where
  year : ℕ
  month : ℕ
  day : ℕ
deriving DecidableEq, Repr

/-- Gregorian leap-year rule. -/
def isLeap (y : ℕ) : Bool :=
  (y % 4 == 0 && y % 100 != 0) || y % 400 == 0

/-- Number of days in a month of a given year. -/
def daysInMonth (y m : ℕ) : ℕ :=
  if m = 2 then (if isLeap y then 29 else 28)
  else if m = 4 ∨ m = 6 ∨ m = 9 ∨ m = 11 then 30
  else 31

/-- Successor day in the Gregorian calendar (`timedelta(days=1)` step). -/
def nextDay (d : Date) : Date :=
  if d.day < daysInMonth d.year d.month then ⟨d.year, d.month, d.day + 1⟩
  else if d.month < 12 then ⟨d.year, d.month + 1, 1⟩
  else ⟨d.year + 1, 1, 1⟩

/-- Days since 1970-01-01 of a Gregorian date (the ordinal behind
`datetime.toordinal` and pandas `datetime64`, up to the epoch shift), by
the standard days-from-civil algorithm. -/
def daysFromCivil (d : Date) : ℤ :=
  let y : ℤ := if d.month ≤ 2 then (d.year : ℤ) - 1 else (d.year : ℤ)
  let m : ℤ := (d.month : ℤ)
  let era : ℤ := (if 0 ≤ y then y else y - 399) / 400
  let yoe : ℤ := y - era * 400
  let doy : ℤ := (153 * (if 2 < m then m - 3 else m + 9) + 2) / 5 + (d.day : ℤ) - 1
  let doe : ℤ := yoe * 365 + yoe / 4 - yoe / 100 + doy
  era * 146097 + doe - 719468

/-- The Gregorian date lying `z` days after 1970-01-01 (the inverse
civil-from-days algorithm, as in `datetime.fromordinal`). -/
def civilFromDays (z0 : ℤ) : Date :=
  let z : ℤ := z0 + 719468
  let era : ℤ := (if 0 ≤ z then z else z - 146096) / 146097
  let doe : ℤ := z - era * 146097
  let yoe : ℤ := (doe - doe / 1460 + doe / 36524 - doe / 146096) / 365
  let y : ℤ := yoe + era * 400
  let doy : ℤ := doe - (365 * yoe + yoe / 4 - yoe / 100)
  let mp : ℤ := (5 * doy + 2) / 153
  let dd : ℤ := doy - (153 * mp + 2) / 5 + 1
  let m : ℤ := if mp < 10 then mp + 3 else mp - 9
  ⟨(if m ≤ 2 then y + 1 else y).toNat, m.toNat, dd.toNat⟩

/-- `d + timedelta(days=n)`: CPython adds a `timedelta` by converting the
date to its ordinal, adding the day count, and converting back. -/
def addDays (d : Date) (n : ℕ) : Date :=
  civilFromDays (daysFromCivil d + n)

/-- `start_date = datetime(2023, 1, 1)`. -/
def start_date : Date := ⟨2023, 1, 1⟩

/-- `dates = [start_date + timedelta(days=x) for x in range(456)]`. -/
def dates : List Date := (List.range 456).map (addDays start_date)

/-- pandas `dt.dayofweek`: Monday = 0 … Sunday = 6 (1970-01-01 was a
Thursday, hence the offset 3). -/
def dayofweek (d : Date) : ℤ :=
  (daysFromCivil d + 3) % 7

/-- `dt.strftime('%Y%m%d').astype(int)`. -/
def date_key (d : Date) : ℕ :=
  d.year * 10000 + d.month * 100 + d.day

/-- `dt.strftime('%b')`. -/
def month_name (m : ℕ) : String :=
  ["Jan", "Feb", "Mar", "Apr", "May", "Jun",
   "Jul", "Aug", "Sep", "Oct", "Nov", "Dec"].getD (m - 1) ""

/-- `dt.quarter`. -/
def quarter (m : ℕ) : ℕ := (m + 2) / 3

/-- One row of `dim_date`. -/
structure DimDateRow where
  date : Date
  date_key : ℕ
  year : ℕ
  month : ℕ
  month_name : String
  quarter : ℕ
  is_weekend : Bool
deriving DecidableEq, Repr

/-- Builds a `dim_date` row from a date: `date_key`, `year`, `month`,
`month_name`, `quarter` and `is_weekend = (dt.dayofweek >= 5)`. -/
def mkDimDateRow (d : Date) : DimDateRow :=
  ⟨d, date_key d, d.year, d.month, month_name d.month, quarter d.month,
   decide (5 ≤ dayofweek d)⟩

/-- The `dim_date` table. -/
def dim_date : List DimDateRow := dates.map mkDimDateRow

/-- One row of `dim_source`. -/
structure SourceRow where
  source_id : ℕ
  source_name : String
  channel : String
deriving DecidableEq, Repr

/-- `sources_data` / `dim_source`: the 8 fixed sources. -/
def dim_source : List SourceRow :=
  [⟨1, "Amazon Ad Server", "Programmatic"⟩,
   ⟨2, "StackAdapt", "Programmatic"⟩,
   ⟨3, "DV360", "Programmatic"⟩,
   ⟨4, "Search Ads 360", "Paid Search"⟩,
   ⟨5, "Bing Ads", "Paid Search"⟩,
   ⟨6, "Facebook", "Paid Social"⟩,
   ⟨7, "LinkedIn Ads", "Paid Social"⟩,
   ⟨8, "Organic Search", "Organic"⟩]

/-- `campaign_config`: (name, channel scope, objective). -/
def campaign_config : List (String × String × String) :=
  [("Business-focused zero tolerance", "Programmatic", "Brand Awareness"),
   ("Profound intangible policy", "Programmatic", "Brand Awareness"),
   ("Networked value-added time-frame", "Programmatic", "Consideration"),
   ("Persistent 24/7 attitude", "Paid Social", "Lead Gen"),
   ("Centralized modular throughput", "Paid Social", "Conversion"),
   ("Integrated dedicated contingency", "Paid Search", "Conversion"),
   ("Automated uniform software", "Paid Search", "Lead Gen"),
   ("Cross-platform static hierarchy", "Organic", "Traffic")]

/-- One row of `dim_campaign` (before the helper column is dropped). -/
structure CampaignRow where
  campaign_id : ℕ
  campaign_name : String
  ad_set_name : String
  channel_scope : String
  objective : String
deriving DecidableEq, Repr

/-- The loop over `campaign_config` producing two ad-set tiers per
campaign with a running `id_counter` starting at 1. -/
def dim_campaign : List CampaignRow :=
  (campaign_config.foldl
    (fun acc cfg =>
      let (name, scope, objective) := cfg
      (acc.1 ++
        [⟨acc.2, name, name ++ "_Tier1", scope, objective⟩,
         ⟨acc.2 + 1, name, name ++ "_Tier2", scope, objective⟩],
       acc.2 + 2))
    (([] : List CampaignRow), 1)).1

/-- One row of `schema_link = dim_campaign.merge(dim_source,
left_on='channel_scope', right_on='channel')`. -/
structure LinkRow where
  campaign_id : ℕ
  campaign_name : String
  ad_set_name : String
  channel_scope : String
  objective : String
  source_id : ℕ
  source_name : String
  channel : String
deriving DecidableEq, Repr

/-- Step A: the logical join of campaigns to sources on
`channel_scope = channel` (inner merge: left rows in order, each paired
with every matching right row). -/
def schema_link : List LinkRow :=
  dim_campaign.flatMap fun c =>
    (dim_source.filter fun s => s.channel == c.channel_scope).map fun s =>
      ⟨c.campaign_id, c.campaign_name, c.ad_set_name, c.channel_scope,
       c.objective, s.source_id, s.source_name, s.channel⟩

/-- One row of the fact skeleton `df_fact = schema_link.merge(dim_date[['date_key',
'is_weekend', 'year', 'month']], how='cross')` (columns used downstream). -/
structure FactRow where
  campaign_id : ℕ
  campaign_name : String
  ad_set_name : String
  channel_scope : String
  objective : String
  source_id : ℕ
  source_name : String
  channel : String
  date_key : ℕ
  is_weekend : Bool
  year : ℕ
  month : ℕ
deriving DecidableEq, Repr

/-- Step B: cross join of the link rows with the date dimension. -/
def df_fact : List FactRow :=
  schema_link.flatMap fun l =>
    dim_date.map fun dr =>
      ⟨l.campaign_id, l.campaign_name, l.ad_set_name, l.channel_scope,
       l.objective, l.source_id, l.source_name, l.channel,
       dr.date_key, dr.is_weekend, dr.year, dr.month⟩

/-- numpy `astype(int)`: truncation toward zero. -/
def truncInt (q : ℚ) : ℤ :=
  if q < 0 then ⌈q⌉ else ⌊q⌋

/-- numpy round-half-to-even to the nearest integer. -/
def roundHalfEven (q : ℚ) : ℤ :=
  if q - ⌊q⌋ < 1 / 2 then ⌊q⌋
  else if 1 / 2 < q - ⌊q⌋ then ⌊q⌋ + 1
  else if ⌊q⌋ % 2 = 0 then ⌊q⌋ else ⌊q⌋ + 1

/-- numpy `.round(2)`: round half to even at two decimal places. -/
def round2 (q : ℚ) : ℚ := (roundHalfEven (q * 100) : ℚ) / 100

/-- The random values drawn for one fact row: `np.random.randint` for the
base impressions and `np.random.uniform` for CTR, CPC, the conversion
rate and the video-view variance factor. -/
structure Draw where
  base_imp : ℕ
  ctr : ℚ
  cpc : ℚ
  conv_rate : ℚ
  vvar : ℚ

/-- The support of the per-channel distributions of
`base_imps` / `ctrs` / `cpcs` (`np.random.randint(lo, hi)` draws from
`[lo, hi)`, `np.random.uniform(lo, hi)` from `[lo, hi)`), plus the
channel-independent draws `conv_rates` and the video variance.  A row
matching none of the four channel masks keeps the `np.zeros`
initialization. -/
def ValidDraw (r : FactRow) (d : Draw) : Prop :=
  (if r.channel = "Programmatic" then
    (5000 ≤ d.base_imp ∧ d.base_imp < 15000) ∧
    (0.003 ≤ d.ctr ∧ d.ctr < 0.007) ∧ (0.30 ≤ d.cpc ∧ d.cpc < 0.90)
  else if r.channel = "Paid Search" then
    (300 ≤ d.base_imp ∧ d.base_imp < 1200) ∧
    (0.08 ≤ d.ctr ∧ d.ctr < 0.12) ∧ (2.50 ≤ d.cpc ∧ d.cpc < 6.00)
  else if r.channel = "Paid Social" then
    (1000 ≤ d.base_imp ∧ d.base_imp < 4000) ∧
    (0.015 ≤ d.ctr ∧ d.ctr < 0.035) ∧ (1.50 ≤ d.cpc ∧ d.cpc < 3.50)
  else if r.channel = "Organic" then
    (1000 ≤ d.base_imp ∧ d.base_imp < 3000) ∧
    (0.05 ≤ d.ctr ∧ d.ctr < 0.08) ∧ d.cpc = 0
  else d.base_imp = 0 ∧ d.ctr = 0 ∧ d.cpc = 0) ∧
  (0.05 ≤ d.conv_rate ∧ d.conv_rate < 0.15) ∧
  (0.8 ≤ d.vvar ∧ d.vvar < 1.2)

instance (r : FactRow) (d : Draw) : Decidable (ValidDraw r d) := by
  unfold ValidDraw; infer_instance

/-- `seasonality = np.where(df_fact['is_weekend'], 0.7, 1.1)`. -/
def seasonality (r : FactRow) : ℚ :=
  if r.is_weekend then 0.7 else 1.1

/-- `mask_spike`: Programmatic rows of August 2023. -/
def mask_spike (r : FactRow) : Bool :=
  r.year == 2023 && r.month == 8 && r.channel == "Programmatic"

/-- `mask_effic`: Paid Search rows of December 2023. -/
def mask_effic (r : FactRow) : Bool :=
  r.year == 2023 && r.month == 12 && r.channel == "Paid Search"

/-- `final_imps = base_imps * seasonality`, then `final_imps[mask_spike]
*= 3.0`. -/
def final_imps (r : FactRow) (d : Draw) : ℚ :=
  if mask_spike r then (d.base_imp : ℚ) * seasonality r * 3.0
  else (d.base_imp : ℚ) * seasonality r

/-- The per-row cost per click after `cpcs[mask_effic] *= 0.7`. -/
def cpcs (r : FactRow) (d : Draw) : ℚ :=
  if mask_effic r then d.cpc * 0.7 else d.cpc

/-- `df_fact['impressions'] = final_imps.astype(int)`. -/
def impressions (r : FactRow) (d : Draw) : ℤ :=
  truncInt (final_imps r d)

/-- `df_fact['clicks'] = (df_fact['impressions'] * ctrs).astype(int)`. -/
def clicks (r : FactRow) (d : Draw) : ℤ :=
  truncInt ((impressions r d : ℚ) * d.ctr)

/-- `df_fact['spend'] = (df_fact['clicks'] * cpcs).round(2)`. -/
def spend (r : FactRow) (d : Draw) : ℚ :=
  round2 ((clicks r d : ℚ) * cpcs r d)

/-- `df_fact['conversions'] = (df_fact['clicks'] * conv_rates).astype(int)`. -/
def conversions (r : FactRow) (d : Draw) : ℤ :=
  truncInt ((clicks r d : ℚ) * d.conv_rate)

/-- `mask_video = df_fact['channel'].isin(['Programmatic', 'Paid Social'])`. -/
def mask_video (r : FactRow) : Bool :=
  r.channel == "Programmatic" || r.channel == "Paid Social"

/-- `df_fact['video_views'] = 0`, overwritten on `mask_video` rows by
`(impressions * 0.40 * np.random.uniform(0.8, 1.2)).astype(int)`. -/
def video_views (r : FactRow) (d : Draw) : ℤ :=
  if mask_video r then truncInt ((impressions r d : ℚ) * 0.40 * d.vvar)
  else 0

/-- The fact columns of one row of the enrichment input
`marketing_analytics_master` (`data_enrichment.py`; values as read back
from CSV). -/
structure MasterRow where
  impressions : ℚ
  clicks : ℚ
  spend : ℚ
  conversions : ℚ

/-- `np.where(impressions > 0, (spend / impressions) * 1000, 0)`. -/
def CPM (r : MasterRow) : ℚ :=
  if 0 < r.impressions then r.spend / r.impressions * 1000 else 0

/-- `np.where(impressions > 0, (clicks / impressions) * 100, 0)`. -/
def CTR (r : MasterRow) : ℚ :=
  if 0 < r.impressions then r.clicks / r.impressions * 100 else 0

/-- `np.where(clicks > 0, spend / clicks, 0)`. -/
def CPC (r : MasterRow) : ℚ :=
  if 0 < r.clicks then r.spend / r.clicks else 0

/-- `np.where(clicks > 0, (conversions / clicks) * 100, 0)`. -/
def Conversion_Rate (r : MasterRow) : ℚ :=
  if 0 < r.clicks then r.conversions / r.clicks * 100 else 0

/-- Zeller's congruence for the Gregorian calendar, an independent
day-of-week computation: 0 = Saturday, 1 = Sunday, …, 6 = Friday. -/
def zeller (dt : Date) : ℕ :=
  let y := if dt.month ≤ 2 then dt.year - 1 else dt.year
  let m := if dt.month ≤ 2 then dt.month + 12 else dt.month
  (dt.day + 13 * (m + 1) / 5 + y % 100 + y % 100 / 4 + y / 100 / 4 +
    5 * (y / 100)) % 7

/-! ### Concrete sample inputs (used for witnesses and counterexamples) -/

/-- The first row of `dim_date`: 2023-01-01, a Sunday. -/
def dr_jan : DimDateRow := ⟨⟨2023, 1, 1⟩, 20230101, 2023, 1, "Jan", 1, true⟩

/-- The `dim_date` row of 2023-08-01, a Tuesday. -/
def dr_aug : DimDateRow := ⟨⟨2023, 8, 1⟩, 20230801, 2023, 8, "Aug", 3, false⟩

/-- The first row of `schema_link`: campaign 1 on source 1. -/
def l_prog : LinkRow :=
  ⟨1, "Business-focused zero tolerance",
   "Business-focused zero tolerance_Tier1", "Programmatic",
   "Brand Awareness", 1, "Amazon Ad Server", "Programmatic"⟩

/-- The `schema_link` row pairing the Organic campaign 15 with source 8. -/
def l_org : LinkRow :=
  ⟨15, "Cross-platform static hierarchy",
   "Cross-platform static hierarchy_Tier1", "Organic", "Traffic",
   8, "Organic Search", "Organic"⟩

/-- The fact-skeleton row for campaign 1, source 1 on 2023-01-01. -/
def r_prog : FactRow :=
  ⟨1, "Business-focused zero tolerance",
   "Business-focused zero tolerance_Tier1", "Programmatic",
   "Brand Awareness", 1, "Amazon Ad Server", "Programmatic",
   20230101, true, 2023, 1⟩

/-- The fact-skeleton row for campaign 1, source 1 on 2023-08-01 (a row
hit by the August impression spike). -/
def r_spike : FactRow :=
  ⟨1, "Business-focused zero tolerance",
   "Business-focused zero tolerance_Tier1", "Programmatic",
   "Brand Awareness", 1, "Amazon Ad Server", "Programmatic",
   20230801, false, 2023, 8⟩

/-- The fact-skeleton row for the Organic campaign 15, source 8 on
2023-01-01. -/
def r_org : FactRow :=
  ⟨15, "Cross-platform static hierarchy",
   "Cross-platform static hierarchy_Tier1", "Organic", "Traffic",
   8, "Organic Search", "Organic", 20230101, true, 2023, 1⟩

/-- A draw inside the Programmatic distribution supports. -/
def d0 : Draw := ⟨10000, 1 / 200, 1 / 2, 1 / 10, 1⟩

/-- A Programmatic draw whose click-through rate makes
`impressions * ctr` a non-integer. -/
def d_frac : Draw := ⟨10000, 51 / 10000, 1 / 2, 1 / 10, 1⟩

/-- A draw inside the Organic distribution supports (zero cost). -/
def d_org : Draw := ⟨2000, 3 / 50, 0, 1 / 10, 1⟩

/-! ### Helper lemmas -/

lemma truncInt_of_nonneg {q : ℚ} (h : 0 ≤ q) : truncInt q = ⌊q⌋ :=
  if_neg (not_lt.mpr h)

lemma truncInt_nonneg {q : ℚ} (h : 0 ≤ q) : 0 ≤ truncInt q := by
  rw [truncInt_of_nonneg h]
  exact Int.le_floor.mpr (by exact_mod_cast h)

lemma truncInt_le_of_le {q : ℚ} {z : ℤ} (h0 : 0 ≤ q) (h : q ≤ (z : ℚ)) :
    truncInt q ≤ z := by
  rw [truncInt_of_nonneg h0]
  calc ⌊q⌋ ≤ ⌊(z : ℚ)⌋ := Int.floor_le_floor h
    _ = z := Int.floor_intCast z

lemma truncInt_eval {q : ℚ} {z : ℤ} (h0 : 0 ≤ q) (hz : (z : ℚ) ≤ q)
    (hz1 : q < z + 1) : truncInt q = z := by
  rw [truncInt_of_nonneg h0]
  exact Int.floor_eq_iff.mpr ⟨hz, hz1⟩

lemma roundHalfEven_nonneg {q : ℚ} (h : 0 ≤ q) : 0 ≤ roundHalfEven q := by
  have hf : 0 ≤ ⌊q⌋ := Int.le_floor.mpr (by exact_mod_cast h)
  rw [roundHalfEven]
  split_ifs <;> omega

lemma round2_nonneg {q : ℚ} (h : 0 ≤ q) : 0 ≤ round2 q := by
  rw [round2]
  have h100 : (0 : ℚ) ≤ q * 100 := by positivity
  have := roundHalfEven_nonneg h100
  have hcast : (0 : ℚ) ≤ (roundHalfEven (q * 100) : ℚ) := by exact_mod_cast this
  positivity

lemma round2_zero : round2 0 = 0 := by
  norm_num [round2, roundHalfEven]

lemma length_flatMap_map {α β γ : Type} (l : List α) (g : List β)
    (f : α → β → γ) :
    (l.flatMap fun a => g.map (f a)).length = l.length * g.length := by
  induction l with
  | nil => simp
  | cons a t ih => simp [ih, Nat.succ_mul, Nat.add_comm]

/-- Whatever channel a row has, the drawn click-through rate lies in
`[0, 1)` and the drawn cost per click is nonnegative. -/
lemma draw_rate_bounds {r : FactRow} {d : Draw} (h : ValidDraw r d) :
    0 ≤ d.ctr ∧ d.ctr < 1 ∧ 0 ≤ d.cpc := by
  obtain ⟨hch, -, -⟩ := h
  split_ifs at hch
  · obtain ⟨-, hc, hp⟩ := hch
    exact ⟨by linarith [hc.1], by linarith [hc.2], by linarith [hp.1]⟩
  · obtain ⟨-, hc, hp⟩ := hch
    exact ⟨by linarith [hc.1], by linarith [hc.2], by linarith [hp.1]⟩
  · obtain ⟨-, hc, hp⟩ := hch
    exact ⟨by linarith [hc.1], by linarith [hc.2], by linarith [hp.1]⟩
  · obtain ⟨-, hc, hp⟩ := hch
    exact ⟨by linarith [hc.1], by linarith [hc.2], by linarith [hp]⟩
  · obtain ⟨-, hc, hp⟩ := hch
    exact ⟨by linarith [hc], by linarith [hc], by linarith [hp]⟩

lemma final_imps_nonneg (r : FactRow) (d : Draw) : 0 ≤ final_imps r d := by
  have h0 : (0 : ℚ) ≤ (d.base_imp : ℚ) := Nat.cast_nonneg _
  rw [final_imps, seasonality]
  split_ifs <;> nlinarith

lemma impressions_nonneg (r : FactRow) (d : Draw) : 0 ≤ impressions r d :=
  truncInt_nonneg (final_imps_nonneg r d)

lemma cpcs_nonneg {r : FactRow} {d : Draw} (h : ValidDraw r d) :
    0 ≤ cpcs r d := by
  have hcpc := (draw_rate_bounds h).2.2
  rw [cpcs]
  split_ifs <;> nlinarith

lemma clicks_nonneg {r : FactRow} {d : Draw} (h : ValidDraw r d) :
    0 ≤ clicks r d := by
  have himpQ : (0 : ℚ) ≤ (impressions r d : ℚ) := by
    exact_mod_cast impressions_nonneg r d
  exact truncInt_nonneg (mul_nonneg himpQ (draw_rate_bounds h).1)

lemma l_prog_mem : l_prog ∈ schema_link := by decide

lemma l_org_mem : l_org ∈ schema_link := by decide

lemma dr_jan_mem : dr_jan ∈ dim_date := by decide

set_option maxRecDepth 4000 in
lemma dr_aug_mem : dr_aug ∈ dim_date := by decide

lemma r_prog_mem : r_prog ∈ df_fact := by
  rw [df_fact]
  exact List.mem_flatMap.mpr
    ⟨l_prog, l_prog_mem, List.mem_map.mpr ⟨dr_jan, dr_jan_mem, rfl⟩⟩

lemma r_spike_mem : r_spike ∈ df_fact := by
  rw [df_fact]
  exact List.mem_flatMap.mpr
    ⟨l_prog, l_prog_mem, List.mem_map.mpr ⟨dr_aug, dr_aug_mem, rfl⟩⟩

lemma r_org_mem : r_org ∈ df_fact := by
  rw [df_fact]
  exact List.mem_flatMap.mpr
    ⟨l_org, l_org_mem, List.mem_map.mpr ⟨dr_jan, dr_jan_mem, rfl⟩⟩

lemma d0_valid : ValidDraw r_prog d0 := by
  unfold ValidDraw
  norm_num [r_prog, d0]

lemma d0_valid_spike : ValidDraw r_spike d0 := by
  unfold ValidDraw
  norm_num [r_spike, d0]

lemma d_frac_valid : ValidDraw r_prog d_frac := by
  unfold ValidDraw
  norm_num [r_prog, d_frac]

lemma d_org_valid : ValidDraw r_org d_org := by
  unfold ValidDraw
  norm_num [r_org, d_org]
  exact ⟨by decide, by decide, by decide⟩

/-! ### Claim theorems -/

/-- C1: for every row of the generated fact table and every admissible
random draw, impressions are nonnegative, clicks never exceed
impressions, spend is nonnegative, and conversions never exceed clicks
(clicks and conversions are integer truncations of a fraction strictly
below 1 of their bases). -/
theorem fact_metric_bounds : ∀ r ∈ df_fact, ∀ d : Draw, ValidDraw r d →
    0 ≤ impressions r d ∧ clicks r d ≤ impressions r d ∧
    0 ≤ spend r d ∧ conversions r d ≤ clicks r d := by
  intro r _ d hd
  obtain ⟨hctr0, hctr1, -⟩ := draw_rate_bounds hd
  have hconv := hd.2.1
  have himp := impressions_nonneg r d
  have himpQ : (0 : ℚ) ≤ (impressions r d : ℚ) := by exact_mod_cast himp
  have hck := clicks_nonneg hd
  have hckQ : (0 : ℚ) ≤ (clicks r d : ℚ) := by exact_mod_cast hck
  refine ⟨himp, ?_, ?_, ?_⟩
  · rw [clicks]
    exact truncInt_le_of_le (mul_nonneg himpQ hctr0)
      (mul_le_of_le_one_right himpQ (le_of_lt hctr1))
  · rw [spend]
    exact round2_nonneg (mul_nonneg hckQ (cpcs_nonneg hd))
  · rw [conversions]
    exact truncInt_le_of_le (mul_nonneg hckQ (by linarith [hconv.1]))
      (mul_le_of_le_one_right hckQ (by linarith [hconv.2]))

/-- C1 witness: the bounds instantiated at the first fact row and a
concrete Programmatic draw. -/
theorem fact_metric_bounds_witness :
    0 ≤ impressions r_prog d0 ∧ clicks r_prog d0 ≤ impressions r_prog d0 ∧
    0 ≤ spend r_prog d0 ∧ conversions r_prog d0 ≤ clicks r_prog d0 :=
  fact_metric_bounds r_prog r_prog_mem d0 d0_valid

/-- C2: referential integrity — every fact row's campaign id, source id
and date key appear in the corresponding dimension table. -/
theorem fact_referential_integrity : ∀ r ∈ df_fact,
    (∃ c ∈ dim_campaign, c.campaign_id = r.campaign_id) ∧
    (∃ s ∈ dim_source, s.source_id = r.source_id) ∧
    (∃ dr ∈ dim_date, dr.date_key = r.date_key) := by
  intro r hr
  rw [df_fact] at hr
  simp only [List.mem_flatMap, List.mem_map] at hr
  obtain ⟨l, hl, dr, hdr, rfl⟩ := hr
  rw [schema_link] at hl
  simp only [List.mem_flatMap, List.mem_map] at hl
  obtain ⟨c, hc, s, hs, rfl⟩ := hl
  exact ⟨⟨c, hc, rfl⟩, ⟨s, List.mem_of_mem_filter hs, rfl⟩, ⟨dr, hdr, rfl⟩⟩

/-- C2 witness: referential integrity at the first fact row. -/
theorem fact_referential_integrity_witness :
    (∃ c ∈ dim_campaign, c.campaign_id = r_prog.campaign_id) ∧
    (∃ s ∈ dim_source, s.source_id = r_prog.source_id) ∧
    (∃ dr ∈ dim_date, dr.date_key = r_prog.date_key) :=
  fact_referential_integrity r_prog r_prog_mem

/-- C3: channel consistency — for every fact row, the channel of the
source carrying its source id equals the channel scope of the campaign
carrying its campaign id. -/
theorem fact_channel_consistency : ∀ r ∈ df_fact, ∀ s ∈ dim_source,
    ∀ c ∈ dim_campaign, s.source_id = r.source_id →
    c.campaign_id = r.campaign_id → s.channel = c.channel_scope := by
  intro r hr
  rw [df_fact] at hr
  simp only [List.mem_flatMap, List.mem_map] at hr
  obtain ⟨l, hl, dr, hdr, rfl⟩ := hr
  intro s hs c hc h1 h2
  have key : ∀ l2 ∈ schema_link, ∀ s2 ∈ dim_source, ∀ c2 ∈ dim_campaign,
      s2.source_id = l2.source_id → c2.campaign_id = l2.campaign_id →
      s2.channel = c2.channel_scope := by decide
  exact key l hl s hs c hc h1 h2

/-- C3 witness: channel consistency at the first fact row against the
matching dimension rows. -/
theorem fact_channel_consistency_witness :
    (⟨1, "Amazon Ad Server", "Programmatic"⟩ : SourceRow).channel =
      (⟨1, "Business-focused zero tolerance",
        "Business-focused zero tolerance_Tier1", "Programmatic",
        "Brand Awareness"⟩ : CampaignRow).channel_scope :=
  fact_channel_consistency r_prog r_prog_mem
    ⟨1, "Amazon Ad Server", "Programmatic"⟩ (by decide)
    ⟨1, "Business-focused zero tolerance",
      "Business-focused zero tolerance_Tier1", "Programmatic",
      "Brand Awareness"⟩ (by decide) rfl rfl

/-- C4 counterexample: the fact table does not have `16 * 456` rows. -/
theorem fact_count_ne_16x456 : ¬ df_fact.length = 16 * 456 := by
  have h1 : df_fact.length = schema_link.length * dim_date.length := by
    rw [df_fact]; exact length_flatMap_map schema_link dim_date _
  have h2 : schema_link.length = 36 := by decide
  have h3 : dim_date.length = 456 := by
    rw [dim_date, List.length_map, dates, List.length_map, List.length_range]
  rw [h1, h2, h3]
  norm_num

/-- C4 (amended): the fact table's row count equals the number of
campaign/source pairs sharing a channel times the number of dates, which
under the fixed configuration is `36 * 456 = 16416`. -/
theorem fact_count_eq_pairs_times_dates :
    df_fact.length = schema_link.length * dim_date.length ∧
    schema_link.length = 36 ∧ dim_date.length = 456 ∧
    df_fact.length = 16416 := by
  have h1 : df_fact.length = schema_link.length * dim_date.length := by
    rw [df_fact]; exact length_flatMap_map schema_link dim_date _
  have h2 : schema_link.length = 36 := by decide
  have h3 : dim_date.length = 456 := by
    rw [dim_date, List.length_map, dates, List.length_map, List.length_range]
  exact ⟨h1, h2, h3, by rw [h1, h2, h3]⟩

set_option maxRecDepth 4000 in
/-- C5: the date dimension has exactly 456 rows, consecutive daily dates,
its last date is 2024-03-31, and a row's weekend flag is set if and only
if its date falls on a Saturday or a Sunday (checked against Zeller's
congruence, where 0 is Saturday and 1 is Sunday). -/
theorem dim_date_calendar :
    dim_date.length = 456 ∧
    (dim_date.getLast?).map (fun row => row.date) = some ⟨2024, 3, 31⟩ ∧
    ((dates.zip dates.tail).all fun p => p.2 == nextDay p.1) = true ∧
    ∀ row ∈ dim_date,
      row.is_weekend = true ↔ (zeller row.date = 0 ∨ zeller row.date = 1) := by
  refine ⟨?_, ?_, ?_, ?_⟩
  · rw [dim_date, List.length_map, dates, List.length_map, List.length_range]
  · decide
  · decide
  · decide

/-- C5 witness: the weekend characterization at the 2023-01-01 row, a
Sunday. -/
theorem dim_date_calendar_witness :
    dr_jan ∈ dim_date ∧
    (dr_jan.is_weekend = true ↔
      (zeller dr_jan.date = 0 ∨ zeller dr_jan.date = 1)) :=
  ⟨dr_jan_mem, dim_date_calendar.2.2.2 dr_jan dr_jan_mem⟩

/-- C6: the enrichment KPIs are total and guarded — when the denominator
is positive they take their formula value, and when it is zero they are
0 rather than undefined. -/
theorem kpi_zero_guards : ∀ r : MasterRow,
    (r.impressions = 0 → CPM r = 0 ∧ CTR r = 0) ∧
    (0 < r.impressions → CPM r = r.spend / r.impressions * 1000 ∧
      CTR r = r.clicks / r.impressions * 100) ∧
    (r.clicks = 0 → CPC r = 0 ∧ Conversion_Rate r = 0) ∧
    (0 < r.clicks → CPC r = r.spend / r.clicks ∧
      Conversion_Rate r = r.conversions / r.clicks * 100) := by
  intro r
  refine ⟨fun h => ?_, fun h => ?_, fun h => ?_, fun h => ?_⟩ <;>
    constructor <;>
    simp [CPM, CTR, CPC, Conversion_Rate, h]

/-- C6 witness: the guards at a row with zero impressions and clicks. -/
theorem kpi_zero_guards_witness :
    CPM ⟨0, 0, 5, 0⟩ = 0 ∧ CTR ⟨0, 0, 5, 0⟩ = 0 :=
  (kpi_zero_guards ⟨0, 0, 5, 0⟩).1 rfl

/-- C7: the two narrative adjustments are deterministic and hit exactly
their target slices — Programmatic rows of August 2023 get their
pre-truncation impressions tripled relative to the seasonal value (their
cost per click untouched), Paid Search rows of December 2023 get their
cost per click multiplied by 0.7, and every other row keeps the
unadjusted seasonal impressions and the drawn cost per click. -/
theorem narrative_adjustments : ∀ r ∈ df_fact, ∀ d : Draw,
    (mask_spike r = true →
      final_imps r d = 3 * ((d.base_imp : ℚ) * seasonality r) ∧
      cpcs r d = d.cpc) ∧
    (mask_spike r = false → final_imps r d = (d.base_imp : ℚ) * seasonality r) ∧
    (mask_effic r = true → cpcs r d = 0.7 * d.cpc) ∧
    (mask_effic r = false → cpcs r d = d.cpc) := by
  intro r _ d
  refine ⟨fun h => ⟨?_, ?_⟩, fun h => ?_, fun h => ?_, fun h => ?_⟩
  · rw [final_imps, if_pos h]; ring
  · rw [cpcs, if_neg ?_]
    intro hef
    rw [mask_spike] at h
    rw [mask_effic] at hef
    simp only [Bool.and_eq_true, beq_iff_eq] at h hef
    omega
  · rw [final_imps, if_neg (by simp [h])]
  · rw [cpcs, if_pos h]; ring
  · rw [cpcs, if_neg (by simp [h])]

/-- C7 witness: the impression spike at a Programmatic row of August
2023 with a concrete draw. -/
theorem narrative_adjustments_witness :
    final_imps r_spike d0 = 3 * ((d0.base_imp : ℚ) * seasonality r_spike) ∧
    cpcs r_spike d0 = d0.cpc :=
  (narrative_adjustments r_spike r_spike_mem d0).1 (by decide)

/-- C8 counterexample: at the first fact row and an admissible draw with
click-through rate 0.0051, clicks (an integer truncation) differ from
`impressions * CTR`, so the claim's exact equations fail. -/
theorem derived_metrics_not_exact :
    r_prog ∈ df_fact ∧ ValidDraw r_prog d_frac ∧
    ¬ ((clicks r_prog d_frac : ℚ) =
        (impressions r_prog d_frac : ℚ) * d_frac.ctr) := by
  refine ⟨r_prog_mem, d_frac_valid, ?_⟩
  have h1 : final_imps r_prog d_frac = 7000 := by
    rw [final_imps, if_neg (by decide), seasonality, if_pos (by decide)]
    norm_num [d_frac]
  have h2 : impressions r_prog d_frac = 7000 := by
    rw [impressions, h1]
    exact truncInt_eval (by norm_num) (by norm_num) (by norm_num)
  have h3 : clicks r_prog d_frac = 35 := by
    rw [clicks, h2]
    refine truncInt_eval ?_ ?_ ?_ <;> norm_num [d_frac]
  rw [h2, h3]
  norm_num [d_frac]

/-- C8 (amended): for every fact row and admissible draw, clicks are
`impressions * ctr` truncated to an integer, spend is
`clicks * cpc` rounded to two decimals, conversions are
`clicks * conv_rate` truncated, with the conversion rate drawn from
`[0.05, 0.15)`, and video views are `impressions * 0.40 * variance`
truncated (variance drawn from `[0.8, 1.2)`) on Programmatic and Paid
Social rows and 0 on all others. -/
theorem derived_metrics_truncated : ∀ r ∈ df_fact, ∀ d : Draw,
    ValidDraw r d →
    clicks r d = truncInt ((impressions r d : ℚ) * d.ctr) ∧
    spend r d = round2 ((clicks r d : ℚ) * cpcs r d) ∧
    conversions r d = truncInt ((clicks r d : ℚ) * d.conv_rate) ∧
    (0.05 ≤ d.conv_rate ∧ d.conv_rate < 0.15) ∧
    (mask_video r = true →
      video_views r d = truncInt ((impressions r d : ℚ) * 0.40 * d.vvar) ∧
      0.8 ≤ d.vvar ∧ d.vvar < 1.2) ∧
    (mask_video r = false → video_views r d = 0) := by
  intro r _ d hd
  refine ⟨rfl, rfl, rfl, hd.2.1, fun h => ⟨?_, hd.2.2⟩, fun h => ?_⟩
  · rw [video_views, if_pos h]
  · rw [video_views, if_neg (by simp [h])]

/-- C8 witness: the truncated formulas at the first fact row and a
concrete draw. -/
theorem derived_metrics_truncated_witness :
    clicks r_prog d0 = truncInt ((impressions r_prog d0 : ℚ) * d0.ctr) ∧
    video_views r_prog d0 =
      truncInt ((impressions r_prog d0 : ℚ) * 0.40 * d0.vvar) :=
  ⟨(derived_metrics_truncated r_prog r_prog_mem d0 d0_valid).1,
   ((derived_metrics_truncated r_prog r_prog_mem d0 d0_valid).2.2.2.2.1
     (by decide)).1⟩

/-- C9: Organic rows cost nothing — for every Organic fact row and every
admissible draw, the per-row cost per click is 0 and the spend is 0. -/
theorem organic_zero_cost : ∀ r ∈ df_fact, ∀ d : Draw, ValidDraw r d →
    r.channel = "Organic" → cpcs r d = 0 ∧ spend r d = 0 := by
  intro r _ d hd hch
  have hcpc : d.cpc = 0 := by
    obtain ⟨h1, -, -⟩ := hd
    rw [hch, if_neg (by decide), if_neg (by decide), if_neg (by decide),
      if_pos rfl] at h1
    exact h1.2.2
  have heff : cpcs r d = d.cpc := by
    rw [cpcs, if_neg ?_]
    intro h
    rw [mask_effic] at h
    simp only [Bool.and_eq_true, beq_iff_eq] at h
    obtain ⟨-, hc⟩ := h
    rw [hch] at hc
    exact absurd hc (by decide)
  refine ⟨by rw [heff, hcpc], ?_⟩
  rw [spend, heff, hcpc, mul_zero, round2_zero]

/-- C9 witness: zero cost at a concrete Organic fact row and draw. -/
theorem organic_zero_cost_witness :
    cpcs r_org d_org = 0 ∧ spend r_org d_org = 0 :=
  organic_zero_cost r_org r_org_mem d_org d_org_valid rfl

/-- C10: for every fact row and admissible draw, video views are
nonnegative and never exceed impressions (at most 48% of them before
truncation; zero outside Programmatic and Paid Social). -/
theorem video_views_bounds : ∀ r ∈ df_fact, ∀ d : Draw, ValidDraw r d →
    0 ≤ video_views r d ∧ video_views r d ≤ impressions r d := by
  intro r _ d hd
  obtain ⟨-, -, hv⟩ := hd
  have himp := impressions_nonneg r d
  have himpQ : (0 : ℚ) ≤ (impressions r d : ℚ) := by exact_mod_cast himp
  rw [video_views]
  split_ifs
  · have h0 : (0 : ℚ) ≤ (impressions r d : ℚ) * 0.40 * d.vvar := by
      have : (0 : ℚ) ≤ d.vvar := by linarith [hv.1]
      positivity
    refine ⟨truncInt_nonneg h0, truncInt_le_of_le h0 ?_⟩
    have h40 : (0.40 : ℚ) * d.vvar ≤ 1 := by linarith [hv.2]
    calc (impressions r d : ℚ) * 0.40 * d.vvar
        = (impressions r d : ℚ) * (0.40 * d.vvar) := by ring
      _ ≤ (impressions r d : ℚ) * 1 := by
          exact mul_le_mul_of_nonneg_left h40 himpQ
      _ = (impressions r d : ℚ) := by ring
  · exact ⟨le_rfl, himp⟩

/-- C10 witness: the video-view bounds at the first fact row and a
concrete draw. -/
theorem video_views_bounds_witness :
    0 ≤ video_views r_prog d0 ∧ video_views r_prog d0 ≤ impressions r_prog d0 :=
  video_views_bounds r_prog r_prog_mem d0 d0_valid

end SynthData
